import Mathlib

/-!
Verification of the Modmail bot's message router against its specification.

The program (`main.go`) is a Discord modmail bot whose whole behaviour lives
in one event handler, `messageCreate`.  We give a shallow embedding: the
handler becomes a pure function from the inbound message, the configuration
(the `STAFF_GUILD_ID` and `CATEGORY_ID` environment values) and an oracle
(`Session`) supplying the results of every external call the handler
inspects, to the trace of external calls (`Action`s) the handler performs.
Calls whose results the Go code ignores with `_` are still recorded in the
trace but need no oracle entry.  Two places in the Go code discard an error
and then dereference the possibly-`nil` result
(`GuildChannelCreateComplex` in the DM path, `UserChannelCreate` in the
`!close` branch); a run that reaches such a dereference with a `nil` pointer
is modelled as `HandlerResult.panicked`, carrying the calls made before the
panic.

String matching is embedded at the level of character lists
(`strings.Contains`, `strings.HasPrefix`, `strings.TrimPrefix`,
`strings.ToLower`); the identifiers involved are ASCII in practice, where
byte-wise Go semantics and character-wise Lean semantics agree.  The regex
`[^a-zA-Z0-9]+` replaced by the empty string is embedded as removal of all
non-ASCII-alphanumeric characters, which is its exact semantics.
-/

namespace Modmail

/-- A guild channel as the handler sees it: platform identifier, name,
parent category identifier and free-text topic. -/
structure Channel where
  id : String
  name : String
  parentID : String
  topic : String
deriving Repr, DecidableEq

/-- An inbound message event: the fields of `discordgo.MessageCreate` that
`messageCreate` reads.  `guildID = ""` marks a direct message.  Attachments
are represented by their URLs, the only field the handler uses. -/
structure Message where
  id : String
  channelID : String
  guildID : String
  authorID : String
  authorUsername : String
  authorAvatarURL : String
  content : String
  attachments : List String
deriving Repr, DecidableEq

/-- A persisted log record: the fields of `ModmailLog` that the handler
determines (`logToDB` adds only the wall-clock timestamp, which is outside
the model). -/
structure LogEntry where
  userID : String
  content : String
  sender : String
  hasFile : Bool
deriving Repr, DecidableEq

/-- A rich (embed) message payload, restricted to the fields the handler
sets.  `hasTimestamp` records whether the Go code set the `Timestamp` field
(the wall-clock value itself is outside the model). -/
structure MessageEmbed where
  title : String := ""
  description : String := ""
  color : Nat := 0
  authorName : String := ""
  authorIconURL : String := ""
  imageURL : Option String := none
  hasTimestamp : Bool := false
deriving Repr, DecidableEq

/-- One external call performed by the handler, in program order. -/
inductive Action where
  /-- `s.GuildChannelCreateComplex`: create a text channel with the given
  guild, name, parent category and topic. -/
  | createChannel (guildID name parentID topic : String)
  /-- `s.ChannelMessageSendEmbed` to the given channel. -/
  | sendEmbed (channelID : String) (embed : MessageEmbed)
  /-- `s.ChannelMessageSend`: a plain text message to the given channel. -/
  | sendMessage (channelID content : String)
  /-- `s.MessageReactionAdd` on the given message. -/
  | addReaction (channelID messageID emoji : String)
  /-- `s.ChannelDelete`. -/
  | deleteChannel (channelID : String)
  /-- `logToDB`: insert one log record into the persistent store. -/
  | log (entry : LogEntry)
deriving Repr, DecidableEq

/-- Whether an action is the ticket-channel-creation call. -/
def Action.isCreate : Action → Bool
  | .createChannel _ _ _ _ => true
  | _ => false

/-- Whether an action is a log insertion. -/
def Action.isLog : Action → Bool
  | .log _ => true
  | _ => false

/-- The configured identifiers (`STAFF_GUILD_ID`, `CATEGORY_ID`). -/
structure Config where
  guildID : String
  categoryID : String
deriving Repr, DecidableEq

/-- The oracle for one handler invocation: the bot's own user identifier and
the results of every external call whose result the handler inspects.
`createResult = none` models `GuildChannelCreateComplex` failing (it then
returns a `nil` channel); `forwardResult` is the identifier of the message
returned by the DM-path forward on success, `none` on failure;
`dmChannel = none` models `UserChannelCreate` failing; `dmSendOk` is whether
the staff-path forward to the user's DM channel succeeds. -/
structure Session where
  stateUserID : String
  guildChannels : List Channel
  createResult : Option Channel
  stateChannel : Option Channel
  fetchedChannel : Option Channel
  dmChannel : Option Channel
  forwardResult : Option String
  dmSendOk : Bool
deriving Repr, DecidableEq

/-- The outcome of one handler invocation: the trace of calls performed, and
whether the invocation finished normally or panicked on a `nil`-pointer
dereference (in which case the trace holds the calls made before the
panic). -/
inductive HandlerResult where
  | ok (actions : List Action)
  | panicked (actions : List Action)
deriving Repr, DecidableEq

/-- The calls performed during the invocation, panicked or not. -/
def HandlerResult.actions : HandlerResult → List Action
  | .ok as => as
  | .panicked as => as

/-- Whether the invocation finished without panicking. -/
def HandlerResult.isOk : HandlerResult → Bool
  | .ok _ => true
  | .panicked _ => false

/-- Boolean list-prefix test on character lists: the Go `strings.HasPrefix`
at character level. -/
def isPrefixOfList : List Char → List Char → Bool
  | [], _ => true
  | _ :: _, [] => false
  | a :: as, b :: bs => a == b && isPrefixOfList as bs

/-- Boolean contiguous-sublist test: the Go `strings.Contains` at character
level (`hasInfix s sub` is whether `sub` occurs inside `s`). -/
def hasInfix : List Char → List Char → Bool
  | [], sub => sub.isEmpty
  | c :: t, sub => isPrefixOfList sub (c :: t) || hasInfix t sub

/-- `strings.Contains s sub`. -/
def stringContains (s sub : String) : Bool :=
  hasInfix s.data sub.data

/-- `strings.HasPrefix s pre`. -/
def stringHasStart (s pre : String) : Bool :=
  isPrefixOfList pre.data s.data

/-- `strings.TrimPrefix s pre`: `s` with `pre` removed when it starts with
`pre`, otherwise `s` unchanged. -/
def trimStart (s pre : String) : String :=
  if stringHasStart s pre then ⟨s.data.drop pre.data.length⟩ else s

/-- `strings.ToLower`, character-wise (the strings compared in the handler
are ASCII, where this agrees with Go's Unicode lowering). -/
def strToLower (s : String) : String :=
  ⟨s.data.map Char.toLower⟩

/-- The cleaned display name: the Go code replaces every match of the regex
`[^a-zA-Z0-9]+` with the empty string — i.e. removes every character outside
`[A-Za-z0-9]` — and lower-cases the remainder (`main.go` line 234). -/
def cleanName (username : String) : String :=
  strToLower ⟨username.data.filter Char.isAlphanum⟩

/-- The canonical ticket channel name `ticket-<cleaned-name>`
(`main.go` line 235). -/
def channelName (username : String) : String :=
  "ticket-" ++ cleanName username

/-- The linear scan over the guild's channels for the first one whose topic
contains the author's identifier as a substring (`main.go` lines 237-244). -/
def findTicket (channels : List Channel) (authorID : String) : Option Channel :=
  channels.find? fun ch => stringContains ch.topic authorID

/-- The channel-metadata resolution of the staff path: `s.State.Channel`
first, falling back to `s.Channel` when the cache misses
(`main.go` lines 285-288). -/
def resolveChannel (s : Session) : Option Channel :=
  match s.stateChannel with
  | some c => some c
  | none => s.fetchedChannel

/-- The embed forwarding a user's DM into the staff channel
(`main.go` lines 267-272): author attribution, the message text, and the
first attachment as image, if any. -/
def userEmbed (m : Message) : MessageEmbed :=
  { authorName := m.authorUsername
    authorIconURL := m.authorAvatarURL
    description := m.content
    color := 0x2ecc71
    imageURL := m.attachments.head? }

/-- The acknowledgment embed sent back to the user on ticket creation
(`main.go` lines 253-258). -/
def ticketCreatedEmbed : MessageEmbed :=
  { title := "🎫 Ticket Created"
    description := "Your message has been sent to the staff. Please wait for a response."
    color := 0x2ecc71
    hasTimestamp := true }

/-- The notification embed posted into a freshly created ticket channel
(`main.go` lines 261-263); `m.Author.Mention()` is `<@id>`. -/
def newTicketEmbed (m : Message) : MessageEmbed :=
  { title := "🆕 New Ticket"
    description := "User: " ++ "<@" ++ m.authorID ++ ">"
    color := 0x3498db }

/-- The embed forwarding a staff message to the user's DM channel
(`main.go` lines 310-313). -/
def staffEmbed (m : Message) : MessageEmbed :=
  { title := "💬 Staff Response"
    description := m.content
    color := 0x3498db
    imageURL := m.attachments.head? }

/-- The closing notice sent to the ticket owner (`main.go` line 302). -/
def closingNotice : String := "🔒 Your ticket has been closed."

/-- The notice posted in the ticket channel when the DM delivery fails
(`main.go` line 321). -/
def dmFailedNotice : String := "❌ Failed to send DM (DMs might be closed)."

/-- The topic prefix marking a ticket channel (`main.go` lines 249, 294). -/
def topicMark : String := "Modmail ID: "

/-- The owner-identifier extraction of the staff path (`main.go` lines
293-296): strip the fixed topic mark when present, else the empty string. -/
def topicUserID (topic : String) : String :=
  if stringHasStart topic topicMark = true then trimStart topic topicMark else ""

/-- The tail of the DM path once a target channel is in hand
(`main.go` lines 266-280): forward the user's message as an embed, react
with 📩 on the forwarded copy when the send succeeded, then append the log
record unconditionally. -/
def dmForwardActions (target : Channel) (s : Session) (m : Message) : List Action :=
  [Action.sendEmbed target.id (userEmbed m)]
    ++ (match s.forwardResult with
        | some msgID => [Action.addReaction target.id msgID "📩"]
        | none => [])
    ++ [Action.log { userID := m.authorID, content := m.content,
                     sender := "user", hasFile := !m.attachments.isEmpty }]

/-- Case A, `USER -> STAFF` (`main.go` lines 232-282): scan for an existing
ticket channel; if none, create one (topic `"Modmail ID: " ++ authorID`),
acknowledge the user and announce the ticket — the creation call's error is
discarded, so a failed creation leaves a `nil` channel that the staff-side
announcement dereferences: a panic.  Then forward the message and log. -/
def handleDM (cfg : Config) (s : Session) (m : Message) : HandlerResult :=
  match findTicket s.guildChannels m.authorID with
  | some target => .ok (dmForwardActions target s m)
  | none =>
    match s.createResult with
    | none =>
      .panicked
        [Action.createChannel cfg.guildID (channelName m.authorUsername)
           cfg.categoryID (topicMark ++ m.authorID),
         Action.sendEmbed m.channelID ticketCreatedEmbed]
    | some target =>
      .ok
        ([Action.createChannel cfg.guildID (channelName m.authorUsername)
            cfg.categoryID (topicMark ++ m.authorID),
          Action.sendEmbed m.channelID ticketCreatedEmbed,
          Action.sendEmbed target.id (newTicketEmbed m)]
          ++ dmForwardActions target s m)

/-- Case B, `STAFF -> USER` (`main.go` lines 284-322): resolve the channel;
reject unless it sits under the configured category and its name starts with
`ticket-`; extract the owner's identifier from the topic, rejecting when the
mark is absent or the remainder empty; on `!close` (case-insensitive) delete
the channel and DM the closing notice — `UserChannelCreate`'s error is
discarded, so its failure panics on the `nil` channel; otherwise forward to
the owner's DM channel, reacting ✅ and logging on success, posting the
failure notice on failure. -/
def handleGuild (cfg : Config) (s : Session) (m : Message) : HandlerResult :=
  match resolveChannel s with
  | none => .ok []
  | some ch =>
    if ch.parentID ≠ cfg.categoryID ∨ stringHasStart ch.name "ticket-" = false then
      .ok []
    else
      if topicUserID ch.topic = "" then .ok []
      else if strToLower m.content = "!close" then
        match s.dmChannel with
        | none => .panicked [Action.deleteChannel m.channelID]
        | some dm =>
          .ok [Action.deleteChannel m.channelID,
               Action.sendMessage dm.id closingNotice]
      else
        match s.dmChannel with
        | none => .ok []
        | some dm =>
          if s.dmSendOk then
            .ok [Action.sendEmbed dm.id (staffEmbed m),
                 Action.addReaction m.channelID m.id "✅",
                 Action.log { userID := topicUserID ch.topic, content := m.content,
                              sender := "staff", hasFile := !m.attachments.isEmpty }]
          else
            .ok [Action.sendEmbed dm.id (staffEmbed m),
                 Action.sendMessage m.channelID dmFailedNotice]

/-- The event handler `messageCreate` (`main.go` lines 228-323): ignore the
bot's own messages, then branch on message origin — an empty guild
identifier marks a direct message. -/
def messageCreate (cfg : Config) (s : Session) (m : Message) : HandlerResult :=
  if m.authorID = s.stateUserID then .ok []
  else if m.guildID = "" then handleDM cfg s m
  else handleGuild cfg s m

/-- Whether an action is the closing notice sent to the ticket owner. -/
def Action.isClosing : Action → Bool
  | .sendMessage _ c => c == closingNotice
  | _ => false

/-! Concrete fixtures used by witnesses and counterexamples. -/

/-- A configuration: staff guild `G`, ticket category `CAT`. -/
def cfgEx : Config := { guildID := "G", categoryID := "CAT" }

/-- An open ticket channel of user `U1`. -/
def chEx : Channel :=
  { id := "C1", name := "ticket-bob", parentID := "CAT", topic := "Modmail ID: U1" }

/-- The DM channel of user `U1`, as resolved by `UserChannelCreate`. -/
def dmuEx : Channel := { id := "DMu", name := "", parentID := "", topic := "" }

/-- A direct message from user `U1`. -/
def mDM : Message :=
  { id := "M1", channelID := "DM1", guildID := "", authorID := "U1",
    authorUsername := "Bob!", authorAvatarURL := "av", content := "Hello",
    attachments := [] }

/-- An oracle for the DM path: `U1`'s ticket already open, forward succeeds
returning message `F1`. -/
def sessDM : Session :=
  { stateUserID := "BOT", guildChannels := [chEx], createResult := none,
    stateChannel := none, fetchedChannel := none, dmChannel := none,
    forwardResult := some "F1", dmSendOk := true }

/-- The DM-path oracle with the forward into the staff channel failing. -/
def sessDMNoAck : Session := { sessDM with forwardResult := none }

/-- The log entry the handler writes for `mDM`. -/
def logEx : LogEntry :=
  { userID := "U1", content := "Hello", sender := "user", hasFile := false }

/-- An oracle with no open ticket and the channel-creation call failing. -/
def sessNoTicket : Session :=
  { sessDM with guildChannels := [], createResult := none, forwardResult := none }

/-- A staff `!Close` message (mixed case) in ticket channel `C1`. -/
def mClose : Message :=
  { id := "M2", channelID := "C1", guildID := "G", authorID := "S1",
    authorUsername := "Staff", authorAvatarURL := "", content := "!Close",
    attachments := [] }

/-- An ordinary staff reply in ticket channel `C1`. -/
def mStaff : Message := { mClose with id := "M3", content := "We can help" }

/-- An oracle for the staff path: channel `C1` resolves from the state
cache, `U1`'s DM channel resolves, the DM send succeeds. -/
def sessStaff : Session :=
  { stateUserID := "BOT", guildChannels := [], createResult := none,
    stateChannel := some chEx, fetchedChannel := none, dmChannel := some dmuEx,
    forwardResult := none, dmSendOk := true }

/-- The staff-path oracle with `UserChannelCreate` failing. -/
def sessCloseNoDm : Session := { sessStaff with dmChannel := none }

/-- A channel whose topic (`Modmail ID: U11`) also contains `U1` as a
substring. -/
def chShadow : Channel :=
  { id := "CA", name := "ticket-x", parentID := "CAT", topic := "Modmail ID: U11" }

/-- `U1`'s own ticket channel in the shadowing scenario. -/
def chOwn : Channel :=
  { id := "CB", name := "ticket-y", parentID := "CAT", topic := "Modmail ID: U1" }

/-- A channel pool where `U11`'s topic shadows `U1`'s identifier. -/
def scanPool : List Channel := [chShadow, chOwn]

/-- A ticket channel of the unrelated user `U2`. -/
def chOther : Channel :=
  { id := "CC", name := "ticket-z", parentID := "CAT", topic := "Modmail ID: U2" }

/-- A channel pool whose topics each contain exactly one of `U1`, `U2`. -/
def scanPool2 : List Channel := [chOwn, chOther]

/-- A `ticket-`-named channel under the wrong parent category. -/
def chWrongCat : Channel :=
  { id := "CW", name := "ticket-w", parentID := "OTHER", topic := "Modmail ID: U9" }

/-- The staff-path oracle resolving to the wrong-category channel. -/
def sessWrongCat : Session := { sessStaff with stateChannel := some chWrongCat }

/-- A ticket channel whose topic is exactly the bare mark `Modmail ID: `. -/
def chBareTopic : Channel :=
  { id := "CE", name := "ticket-e", parentID := "CAT", topic := "Modmail ID: " }

/-- The staff-path oracle resolving to the bare-topic channel. -/
def sessBareTopic : Session := { sessStaff with stateChannel := some chBareTopic }

/-! Helper lemmas. -/

/-- A character list is a prefix of itself followed by anything. -/
theorem isPrefixOfList_self_append (p r : List Char) :
    isPrefixOfList p (p ++ r) = true := by
  induction p with
  | nil => rfl
  | cons a as ih => simp [isPrefixOfList, ih]

/-- When exactly one channel's topic contains the identifier, the scan finds
it. -/
theorem findTicket_eq_some (channels : List Channel) (ch : Channel) (uid : String)
    (hmem : ch ∈ channels)
    (hc : stringContains ch.topic uid = true)
    (huniq : ∀ ch2 ∈ channels, stringContains ch2.topic uid = true → ch2 = ch) :
    findTicket channels uid = some ch := by
  unfold findTicket
  cases hfind : channels.find? (fun c => stringContains c.topic uid) with
  | none =>
    have hnone := List.find?_eq_none.mp hfind ch hmem
    simp [hc] at hnone
  | some c =>
    have h1 := List.find?_some hfind
    have h2 := List.mem_of_find?_eq_some hfind
    rw [huniq c h2 h1]

/-- The only log action the DM-path tail can emit is the user-side record. -/
theorem log_mem_dmForward (target : Channel) (s : Session) (m : Message)
    (e : LogEntry) (h : Action.log e ∈ dmForwardActions target s m) :
    e = { userID := m.authorID, content := m.content, sender := "user",
          hasFile := !m.attachments.isEmpty } := by
  unfold dmForwardActions at h
  cases hf : s.forwardResult <;> rw [hf] at h <;> simp at h <;> exact h

/-- The user-side log record is in the DM-path tail. -/
theorem log_self_mem_dmForward (target : Channel) (s : Session) (m : Message) :
    Action.log { userID := m.authorID, content := m.content, sender := "user",
                 hasFile := !m.attachments.isEmpty } ∈ dmForwardActions target s m := by
  unfold dmForwardActions
  cases s.forwardResult <;> simp

/-- C1: when the author of a direct message already owns an open ticket —
a guild channel whose topic contains the author's identifier, unique as the
one-ticket-per-user invariant provides — the handler forwards the message
into that same channel and performs no channel-creation call. -/
theorem C1_existing_ticket_reused (cfg : Config) (s : Session) (m : Message)
    (ch : Channel)
    (hbot : m.authorID ≠ s.stateUserID) (hdm : m.guildID = "")
    (hmem : ch ∈ s.guildChannels)
    (hc : stringContains ch.topic m.authorID = true)
    (huniq : ∀ ch2 ∈ s.guildChannels,
      stringContains ch2.topic m.authorID = true → ch2 = ch) :
    (∀ a ∈ (messageCreate cfg s m).actions, a.isCreate = false) ∧
      Action.sendEmbed ch.id (userEmbed m) ∈ (messageCreate cfg s m).actions := by
  have hfind := findTicket_eq_some s.guildChannels ch m.authorID hmem hc huniq
  unfold messageCreate
  rw [if_neg hbot, if_pos hdm]
  unfold handleDM
  rw [hfind]
  constructor
  · simp only [HandlerResult.actions]
    unfold dmForwardActions
    cases s.forwardResult with
    | none =>
      intro a ha
      simp at ha
      rcases ha with rfl | rfl <;> rfl
    | some msgID =>
      intro a ha
      simp at ha
      rcases ha with rfl | rfl | rfl <;> rfl
  · simp only [HandlerResult.actions]
    unfold dmForwardActions
    cases s.forwardResult <;> simp

/-- C1 witness: user `U1`, whose open ticket is `chEx`, sends a second
direct message; it is forwarded into `chEx` and no creation call happens. -/
theorem C1_existing_ticket_reused_witness :
    (mDM.authorID ≠ sessDM.stateUserID ∧ mDM.guildID = "" ∧
      chEx ∈ sessDM.guildChannels ∧
      stringContains chEx.topic mDM.authorID = true ∧
      ∀ ch2 ∈ sessDM.guildChannels,
        stringContains ch2.topic mDM.authorID = true → ch2 = chEx) ∧
    ((∀ a ∈ (messageCreate cfgEx sessDM mDM).actions, a.isCreate = false) ∧
      Action.sendEmbed chEx.id (userEmbed mDM) ∈ (messageCreate cfgEx sessDM mDM).actions) :=
  ⟨⟨by decide, by decide, by decide, by decide, by decide⟩,
    C1_existing_ticket_reused cfgEx sessDM mDM chEx (by decide) (by decide)
      (by decide) (by decide) (by decide)⟩

/-- C2: at the failing input — a direct message from `U1` with no open
ticket and the channel-creation call failing — the handler does not abandon
the flow cleanly: it sends the `Ticket Created` acknowledgment to the user
and then panics dereferencing the `nil` created channel.  No log entry is
written, as the claim states, but by crash rather than by clean
abandonment. -/
theorem C2_create_failure_panics :
    messageCreate cfgEx sessNoTicket mDM =
      .panicked [Action.createChannel "G" "ticket-bob" "CAT" "Modmail ID: U1",
                 Action.sendEmbed "DM1" ticketCreatedEmbed] ∧
    (∀ a ∈ (messageCreate cfgEx sessNoTicket mDM).actions, a.isLog = false) ∧
    (messageCreate cfgEx sessNoTicket mDM).isOk = false := by decide

/-- C3 counterexample: `U1 ≠ U11`, and `U1`'s own ticket `chOwn` is in the
pool, yet the scan routes both users to the same channel `chShadow`,
because `U1` is a substring of the topic `Modmail ID: U11`. -/
theorem C3_substring_id_counterexample :
    ("U1" : String) ≠ "U11" ∧
      findTicket scanPool "U1" = some chShadow ∧
      findTicket scanPool "U11" = some chShadow ∧
      chOwn ∈ scanPool ∧ stringContains chOwn.topic "U1" = true := by decide

/-- C3 amended: for distinct users `u1 ≠ u2`, when no channel topic in the
pool contains both identifiers (in particular when neither identifier is a
substring of the other's topic), the scan routes the two users to distinct
channels. -/
theorem C3_distinct_users_distinct_channels (channels : List Channel)
    (u1 u2 : String) (c1 c2 : Channel)
    (_hne : u1 ≠ u2)
    (hsep : ∀ ch ∈ channels,
      ¬(stringContains ch.topic u1 = true ∧ stringContains ch.topic u2 = true))
    (h1 : findTicket channels u1 = some c1)
    (h2 : findTicket channels u2 = some c2) :
    c1 ≠ c2 := by
  intro heq
  unfold findTicket at h1 h2
  have p1 := List.find?_some h1
  have m1 := List.mem_of_find?_eq_some h1
  have p2 := List.find?_some h2
  exact hsep c1 m1 ⟨p1, by rw [heq]; exact p2⟩

/-- C3 amended witness: `U1` and `U2`, whose topics contain exactly one
identifier each, are routed to the distinct channels `chOwn` and
`chOther`. -/
theorem C3_distinct_users_distinct_channels_witness :
    (("U1" : String) ≠ "U2" ∧
      (∀ ch ∈ scanPool2,
        ¬(stringContains ch.topic "U1" = true ∧ stringContains ch.topic "U2" = true)) ∧
      findTicket scanPool2 "U1" = some chOwn ∧
      findTicket scanPool2 "U2" = some chOther) ∧
    chOwn ≠ chOther :=
  ⟨⟨by decide, by decide, by decide, by decide⟩,
    C3_distinct_users_distinct_channels scanPool2 "U1" "U2" chOwn chOther
      (by decide) (by decide) (by decide) (by decide)⟩

/-- C4 counterexample: a staff `!Close` in the valid ticket channel `chEx`,
with the owner's DM-channel resolution failing, deletes the channel but
sends no closing notice — the handler panics on the `nil` DM channel — so
the unconditional "sends exactly one closing notice" fails. -/
theorem C4_close_no_dm_counterexample :
    strToLower mClose.content = "!close" ∧
      resolveChannel sessCloseNoDm = some chEx ∧
      chEx.parentID = cfgEx.categoryID ∧
      stringHasStart chEx.name "ticket-" = true ∧
      topicUserID chEx.topic = "U1" ∧
      messageCreate cfgEx sessCloseNoDm mClose =
        .panicked [Action.deleteChannel "C1"] ∧
      (∀ a ∈ (messageCreate cfgEx sessCloseNoDm mClose).actions,
        a.isClosing = false) := by decide

/-- C4 amended: a staff message equal, case-insensitively, to `!close` in a
valid ticket channel deletes the channel and — provided the owner's DM
channel resolves — sends exactly one closing notice to the owner, with no
log entry; when the DM channel fails to resolve the handler panics after
the deletion and no notice is sent. -/
theorem C4_close_deletes_and_notifies (cfg : Config) (s : Session)
    (m : Message) (ch dm : Channel)
    (hbot : m.authorID ≠ s.stateUserID) (hg : m.guildID ≠ "")
    (hres : resolveChannel s = some ch)
    (hpar : ch.parentID = cfg.categoryID)
    (hname : stringHasStart ch.name "ticket-" = true)
    (huid : topicUserID ch.topic ≠ "")
    (hclose : strToLower m.content = "!close")
    (hdm : s.dmChannel = some dm) :
    messageCreate cfg s m =
      .ok [Action.deleteChannel m.channelID,
           Action.sendMessage dm.id closingNotice] := by
  unfold messageCreate
  rw [if_neg hbot, if_neg hg]
  unfold handleGuild
  rw [hres]
  dsimp only
  rw [if_neg (not_or.mpr ⟨fun hk => hk hpar, fun hk => by rw [hname] at hk; cases hk⟩)]
  rw [if_neg huid, if_pos hclose, hdm]

/-- C4 amended witness: staff `!Close` in `chEx` with the owner's DM
channel resolving to `dmuEx` deletes `C1` and sends the single closing
notice there. -/
theorem C4_close_deletes_and_notifies_witness :
    (mClose.authorID ≠ sessStaff.stateUserID ∧ mClose.guildID ≠ "" ∧
      resolveChannel sessStaff = some chEx ∧
      chEx.parentID = cfgEx.categoryID ∧
      stringHasStart chEx.name "ticket-" = true ∧
      topicUserID chEx.topic ≠ "" ∧
      strToLower mClose.content = "!close" ∧
      sessStaff.dmChannel = some dmuEx) ∧
    messageCreate cfgEx sessStaff mClose =
      .ok [Action.deleteChannel "C1", Action.sendMessage "DMu" closingNotice] :=
  ⟨⟨by decide, by decide, by decide, by decide, by decide, by decide, by decide,
      by decide⟩,
    C4_close_deletes_and_notifies cfgEx sessStaff mClose chEx dmuEx
      (by decide) (by decide) (by decide) (by decide) (by decide) (by decide)
      (by decide) (by decide)⟩

/-- C5: a guild message whose channel does not resolve to one sitting under
the configured ticket category with a `ticket-`-prefixed name is a complete
no-op: the handler performs no call at all. -/
theorem C5_non_ticket_channel_noop (cfg : Config) (s : Session) (m : Message)
    (hg : m.guildID ≠ "")
    (hrej : ∀ ch, resolveChannel s = some ch →
      ch.parentID ≠ cfg.categoryID ∨ stringHasStart ch.name "ticket-" = false) :
    messageCreate cfg s m = .ok [] := by
  unfold messageCreate
  by_cases hbot : m.authorID = s.stateUserID
  · rw [if_pos hbot]
  · rw [if_neg hbot, if_neg hg]
    unfold handleGuild
    cases hres : resolveChannel s with
    | none => rfl
    | some ch =>
      dsimp only
      rw [if_pos (hrej ch hres)]

/-- C5 witness: a staff message in a `ticket-`-named channel under the
wrong parent category produces no action. -/
theorem C5_non_ticket_channel_noop_witness :
    (mStaff.guildID ≠ "" ∧
      (∀ ch, resolveChannel sessWrongCat = some ch →
        ch.parentID ≠ cfgEx.categoryID ∨ stringHasStart ch.name "ticket-" = false)) ∧
    messageCreate cfgEx sessWrongCat mStaff = .ok [] :=
  ⟨⟨by decide, by decide⟩,
    C5_non_ticket_channel_noop cfgEx sessWrongCat mStaff (by decide) (by decide)⟩

/-- C6: a staff message in a valid ticket channel, forwarded to the owner's
DM channel: on send success the handler reacts ✅ on the original staff
message and appends exactly one log entry with sender `staff`; on send
failure it posts the delivery-failure notice in the ticket channel and
writes no log entry. -/
theorem C6_staff_forward_ack_or_notice (cfg : Config) (s : Session)
    (m : Message) (ch dm : Channel)
    (hbot : m.authorID ≠ s.stateUserID) (hg : m.guildID ≠ "")
    (hres : resolveChannel s = some ch)
    (hpar : ch.parentID = cfg.categoryID)
    (hname : stringHasStart ch.name "ticket-" = true)
    (huid : topicUserID ch.topic ≠ "")
    (hnclose : strToLower m.content ≠ "!close")
    (hdm : s.dmChannel = some dm) :
    messageCreate cfg s m =
      (if s.dmSendOk then
        .ok [Action.sendEmbed dm.id (staffEmbed m),
             Action.addReaction m.channelID m.id "✅",
             Action.log { userID := topicUserID ch.topic, content := m.content,
                          sender := "staff", hasFile := !m.attachments.isEmpty }]
       else
        .ok [Action.sendEmbed dm.id (staffEmbed m),
             Action.sendMessage m.channelID dmFailedNotice]) := by
  unfold messageCreate
  rw [if_neg hbot, if_neg hg]
  unfold handleGuild
  rw [hres]
  dsimp only
  rw [if_neg (not_or.mpr ⟨fun hk => hk hpar, fun hk => by rw [hname] at hk; cases hk⟩)]
  rw [if_neg huid, if_neg hnclose, hdm]

/-- C6 witness: the staff reply in `chEx` forwarded to `dmuEx` with the
send succeeding yields the embed, the ✅ reaction and the single staff log
entry. -/
theorem C6_staff_forward_ack_or_notice_witness :
    (mStaff.authorID ≠ sessStaff.stateUserID ∧ mStaff.guildID ≠ "" ∧
      resolveChannel sessStaff = some chEx ∧
      chEx.parentID = cfgEx.categoryID ∧
      stringHasStart chEx.name "ticket-" = true ∧
      topicUserID chEx.topic ≠ "" ∧
      strToLower mStaff.content ≠ "!close" ∧
      sessStaff.dmChannel = some dmuEx) ∧
    messageCreate cfgEx sessStaff mStaff =
      (if sessStaff.dmSendOk then
        .ok [Action.sendEmbed dmuEx.id (staffEmbed mStaff),
             Action.addReaction mStaff.channelID mStaff.id "✅",
             Action.log { userID := topicUserID chEx.topic,
                          content := mStaff.content, sender := "staff",
                          hasFile := !mStaff.attachments.isEmpty }]
       else
        .ok [Action.sendEmbed dmuEx.id (staffEmbed mStaff),
             Action.sendMessage mStaff.channelID dmFailedNotice]) :=
  ⟨⟨by decide, by decide, by decide, by decide, by decide, by decide, by decide,
      by decide⟩,
    C6_staff_forward_ack_or_notice cfgEx sessStaff mStaff chEx dmuEx
      (by decide) (by decide) (by decide) (by decide) (by decide) (by decide)
      (by decide) (by decide)⟩

/-- C7: every log entry the handler writes, in either direction, has its
`hasFile` flag true exactly when the source message carries at least one
attachment, and its sender tag is `user` for the DM direction and `staff`
for the guild direction. -/
theorem C7_log_entry_fields (cfg : Config) (s : Session) (m : Message)
    (e : LogEntry) (h : Action.log e ∈ (messageCreate cfg s m).actions) :
    e.hasFile = !m.attachments.isEmpty ∧
      (m.guildID = "" → e.sender = "user") ∧
      (m.guildID ≠ "" → e.sender = "staff") := by
  unfold messageCreate at h
  by_cases hbot : m.authorID = s.stateUserID
  · rw [if_pos hbot] at h
    simp [HandlerResult.actions] at h
  · rw [if_neg hbot] at h
    by_cases hg : m.guildID = ""
    · rw [if_pos hg] at h
      unfold handleDM at h
      cases hft : findTicket s.guildChannels m.authorID with
      | some target =>
        rw [hft] at h
        simp only [HandlerResult.actions] at h
        have he := log_mem_dmForward target s m e h
        subst he
        exact ⟨rfl, fun _ => rfl, fun hk => absurd hg hk⟩
      | none =>
        rw [hft] at h
        cases hcr : s.createResult with
        | none =>
          rw [hcr] at h
          simp [HandlerResult.actions] at h
        | some target =>
          rw [hcr] at h
          simp only [HandlerResult.actions, List.mem_append, List.mem_cons,
            List.not_mem_nil, or_false] at h
          rcases h with (h | h | h) | h
          · cases h
          · cases h
          · cases h
          · have he := log_mem_dmForward target s m e h
            subst he
            exact ⟨rfl, fun _ => rfl, fun hk => absurd hg hk⟩
    · rw [if_neg hg] at h
      unfold handleGuild at h
      cases hres : resolveChannel s with
      | none =>
        rw [hres] at h
        simp [HandlerResult.actions] at h
      | some ch =>
        rw [hres] at h
        dsimp only at h
        by_cases hb1 : ch.parentID ≠ cfg.categoryID ∨ stringHasStart ch.name "ticket-" = false
        · rw [if_pos hb1] at h
          simp [HandlerResult.actions] at h
        · rw [if_neg hb1] at h
          by_cases hb2 : topicUserID ch.topic = ""
          · rw [if_pos hb2] at h
            simp [HandlerResult.actions] at h
          · rw [if_neg hb2] at h
            by_cases hb3 : strToLower m.content = "!close"
            · rw [if_pos hb3] at h
              cases hdm : s.dmChannel with
              | none =>
                rw [hdm] at h
                simp [HandlerResult.actions] at h
              | some dm =>
                rw [hdm] at h
                simp [HandlerResult.actions] at h
            · rw [if_neg hb3] at h
              cases hdm : s.dmChannel with
              | none =>
                rw [hdm] at h
                simp [HandlerResult.actions] at h
              | some dm =>
                rw [hdm] at h
                dsimp only at h
                by_cases hok : s.dmSendOk = true
                · rw [if_pos hok] at h
                  simp [HandlerResult.actions] at h
                  subst h
                  exact ⟨rfl, fun hk => absurd hk hg, fun _ => rfl⟩
                · rw [if_neg hok] at h
                  simp [HandlerResult.actions] at h

/-- C7 witness: the forwarded DM from `U1` produces the user log entry, and
its fields satisfy the flag and sender properties. -/
theorem C7_log_entry_fields_witness :
    Action.log logEx ∈ (messageCreate cfgEx sessDM mDM).actions ∧
    (logEx.hasFile = !mDM.attachments.isEmpty ∧
      (mDM.guildID = "" → logEx.sender = "user") ∧
      (mDM.guildID ≠ "" → logEx.sender = "staff")) :=
  ⟨by decide, C7_log_entry_fields cfgEx sessDM mDM logEx (by decide)⟩

/-- C8: the canonical ticket channel name is `ticket-` followed by the
display name with every character outside `[A-Za-z0-9]` removed and the
remainder lower-cased; a fully non-alphanumeric display name yields exactly
`ticket-`, with no uniqueness suffix. -/
theorem C8_channelName_canonical (u : String)
    (h : ∀ c ∈ u.data, c.isAlphanum = false) :
    channelName u = "ticket-" ∧
      (∀ v : String,
        (channelName v).data =
          "ticket-".data ++ (v.data.filter Char.isAlphanum).map Char.toLower) := by
  constructor
  · unfold channelName cleanName strToLower
    have hnil : u.data.filter Char.isAlphanum = [] := by
      rw [List.filter_eq_nil_iff]
      intro c hc
      simp [h c hc]
    rw [hnil]
    decide
  · intro v
    unfold channelName cleanName strToLower
    rw [String.data_append]

/-- C8 witness: the fully non-alphanumeric display name `!!!` yields the
bare name `ticket-`. -/
theorem C8_channelName_canonical_witness :
    (∀ c ∈ ("!!!" : String).data, c.isAlphanum = false) ∧
      (channelName "!!!" = "ticket-" ∧
        ∀ v : String,
          (channelName v).data =
            "ticket-".data ++ (v.data.filter Char.isAlphanum).map Char.toLower) :=
  ⟨by decide, C8_channelName_canonical "!!!" (by decide)⟩

/-- C9: a guild message in a channel passing the category and name checks
whose topic is exactly the bare mark `Modmail ID: ` — an empty extracted
owner identifier — is a complete no-op. -/
theorem C9_bare_topic_noop (cfg : Config) (s : Session) (m : Message)
    (ch : Channel)
    (hg : m.guildID ≠ "")
    (hres : resolveChannel s = some ch)
    (hpar : ch.parentID = cfg.categoryID)
    (hname : stringHasStart ch.name "ticket-" = true)
    (htopic : ch.topic = "Modmail ID: ") :
    messageCreate cfg s m = .ok [] := by
  unfold messageCreate
  by_cases hbot : m.authorID = s.stateUserID
  · rw [if_pos hbot]
  · rw [if_neg hbot, if_neg hg]
    unfold handleGuild
    rw [hres]
    dsimp only
    rw [if_neg (not_or.mpr ⟨fun hk => hk hpar, fun hk => by rw [hname] at hk; cases hk⟩)]
    rw [if_pos (show topicUserID ch.topic = "" by rw [htopic]; decide)]

/-- C9 witness: a staff reply in the bare-topic channel `chBareTopic`
produces no action at all. -/
theorem C9_bare_topic_noop_witness :
    (mStaff.guildID ≠ "" ∧
      resolveChannel sessBareTopic = some chBareTopic ∧
      chBareTopic.parentID = cfgEx.categoryID ∧
      stringHasStart chBareTopic.name "ticket-" = true ∧
      chBareTopic.topic = "Modmail ID: ") ∧
    messageCreate cfgEx sessBareTopic mStaff = .ok [] :=
  ⟨⟨by decide, by decide, by decide, by decide, by decide⟩,
    C9_bare_topic_noop cfgEx sessBareTopic mStaff chBareTopic
      (by decide) (by decide) (by decide) (by decide) (by decide)⟩

/-- C10: once a direct message reaches the forwarding step — the scan found
a ticket channel, or the creation call returned one — the user-side log
entry is appended regardless of whether the forward into the staff channel
succeeded. -/
theorem C10_dm_log_unconditional (cfg : Config) (s : Session) (m : Message)
    (hbot : m.authorID ≠ s.stateUserID) (hdm : m.guildID = "")
    (hreach : (findTicket s.guildChannels m.authorID).isSome = true ∨
      s.createResult.isSome = true) :
    Action.log { userID := m.authorID, content := m.content, sender := "user",
                 hasFile := !m.attachments.isEmpty }
      ∈ (messageCreate cfg s m).actions := by
  unfold messageCreate
  rw [if_neg hbot, if_pos hdm]
  unfold handleDM
  cases hft : findTicket s.guildChannels m.authorID with
  | some target =>
    simp only [HandlerResult.actions]
    exact log_self_mem_dmForward target s m
  | none =>
    rw [hft] at hreach
    cases hcr : s.createResult with
    | none =>
      rw [hcr] at hreach
      simp at hreach
    | some target =>
      simp only [HandlerResult.actions, List.mem_append]
      exact Or.inr (log_self_mem_dmForward target s m)

/-- C10 witness: `U1`'s DM with the forward into the staff channel failing
still appends the user log entry. -/
theorem C10_dm_log_unconditional_witness :
    (mDM.authorID ≠ sessDMNoAck.stateUserID ∧ mDM.guildID = "" ∧
      ((findTicket sessDMNoAck.guildChannels mDM.authorID).isSome = true ∨
        sessDMNoAck.createResult.isSome = true) ∧
      sessDMNoAck.forwardResult = none) ∧
    Action.log { userID := mDM.authorID, content := mDM.content,
                 sender := "user", hasFile := !mDM.attachments.isEmpty }
      ∈ (messageCreate cfgEx sessDMNoAck mDM).actions :=
  ⟨⟨by decide, by decide, by decide, by decide⟩,
    C10_dm_log_unconditional cfgEx sessDMNoAck mDM (by decide) (by decide)
      (by decide)⟩

end Modmail
